import Mathlib

/-!
# Waste Tracker — shallow embedding and verification

A shallow embedding of `src/waste_tracker.py` (a JSONL-backed kitchen
waste log) and proofs about its entry model, log store, search, and
summary aggregator.

Modelling conventions, stated once:

* Python floats are modelled as rationals (`ℚ`).  Every quantity the
  claims exercise (sums of small decimals, division by 16 = 2^4) is
  exact in binary floating point, so the rational model and the float
  computation agree on these values.
* `json.dumps` / `json.loads` on the eight-field dictionaries produced
  by `WasteEntry.to_dict` form a bijection between dictionaries and
  their one-line JSON texts (Python's json round-trips str and float
  values exactly and escapes newlines), so serialization is modelled at
  the record (dictionary) level: a `Record` is a JSON object over the
  eight known keys, each possibly absent.
* A line of the log file is modelled abstractly by `LogLine`:
  whitespace-only (`blank`, stripped and skipped by `load_entries`),
  text that fails `json.loads` with a `json.JSONDecodeError`
  (`malformed`), or a parsed JSON object (`record r`).
* Functions that Python lets raise are modelled in `Except String`;
  the error payload names the missing dictionary key (`KeyError`).
* `defaultdict` values in the summary are modelled as total functions
  returning the default outside the touched keys.
-/

namespace WasteTracker

/-- The `WasteEntry` data model: one waste log entry
(`waste_tracker.py`, class `WasteEntry`).  `id` and `timestamp` are
process-generated strings; they are carried as plain fields because the
embedding is of the already-constructed record. -/
structure WasteEntry where
  id : String
  timestamp : String
  station : String
  waste_type : String
  item_name : String
  quantity_type : String
  quantity_value : ℚ
  notes : String
deriving DecidableEq

/-- A JSON object over the eight field names `WasteEntry.from_json`
looks at; `none` models an absent key.  (Extra keys are ignored by
`from_json` and so are not modelled.) -/
structure Record where
  id : Option String
  timestamp : Option String
  station : Option String
  waste_type : Option String
  item_name : Option String
  quantity_type : Option String
  quantity_value : Option ℚ
  notes : Option String
deriving DecidableEq

/-- `WasteEntry.to_dict`: the eight-field dictionary of an entry. -/
def WasteEntry.to_dict (e : WasteEntry) : Record :=
  { id := some e.id
    timestamp := some e.timestamp
    station := some e.station
    waste_type := some e.waste_type
    item_name := some e.item_name
    quantity_type := some e.quantity_type
    quantity_value := some e.quantity_value
    notes := some e.notes }

/-- `data[key]` on a Python dict: returns the value or raises
`KeyError(key)`, modelled as `Except.error key`. -/
def getRequired (key : String) : Option α → Except String α
  | none => Except.error key
  | some a => Except.ok a

/-- `WasteEntry.from_json`: rebuilds an entry from a parsed JSON object.
Field accesses happen in source order (station, waste_type, item_name,
quantity_type, quantity_value, then `data.get("notes", "")`, then the
`id` and `timestamp` overwrites), so the error names the first missing
required key.  `notes` defaults to the empty string. -/
def WasteEntry.from_json (r : Record) : Except String WasteEntry := do
  let station ← getRequired "station" r.station
  let waste_type ← getRequired "waste_type" r.waste_type
  let item_name ← getRequired "item_name" r.item_name
  let quantity_type ← getRequired "quantity_type" r.quantity_type
  let quantity_value ← getRequired "quantity_value" r.quantity_value
  let notes := r.notes.getD ""
  let id ← getRequired "id" r.id
  let timestamp ← getRequired "timestamp" r.timestamp
  return { id := id, timestamp := timestamp, station := station,
           waste_type := waste_type, item_name := item_name,
           quantity_type := quantity_type, quantity_value := quantity_value,
           notes := notes }

/-- One line of the JSONL log file, abstracted (see module comment). -/
inductive LogLine
  | blank
  | malformed
  | record (r : Record)
deriving DecidableEq

/-- The line-processing loop of `load_entries`: blank lines are
skipped; a line raising `json.JSONDecodeError` is skipped with a
printed warning; a parsed object goes through `from_json`, whose
`KeyError` is NOT caught by the `except json.JSONDecodeError` clause
and so aborts the whole load. -/
def loadLines : List LogLine → Except String (List WasteEntry)
  | [] => Except.ok []
  | LogLine.blank :: rest => loadLines rest
  | LogLine.malformed :: rest => loadLines rest
  | LogLine.record r :: rest =>
    match WasteEntry.from_json r with
    | Except.ok e => (loadLines rest).map (fun es => e :: es)
    | Except.error k => Except.error k

/-- `load_entries`: a file is `none` when absent (the
`FileNotFoundError` branch returns the empty list), otherwise its list
of lines. -/
def load_entries : Option (List LogLine) → Except String (List WasteEntry)
  | none => Except.ok []
  | some lines => loadLines lines

/-- `save_entry`: opens the file in append mode (creating it if
missing) and writes `entry.to_json() + "\n"`, i.e. one new record line
at the end. -/
def save_entry (file : Option (List LogLine)) (e : WasteEntry) :
    Option (List LogLine) :=
  some (file.getD [] ++ [LogLine.record e.to_dict])

/-- The filtering step of `delete_entry`:
`updated_entries = [e for e in entries if e.id != selected.id]`. -/
def updated_entries (target : String) (entries : List WasteEntry) :
    List WasteEntry :=
  entries.filter (fun e => e.id ≠ target)

/-- The rewrite step of `delete_entry`: the log file is reopened in
write mode and each remaining entry is written as one record line. -/
def rewrite_log (entries : List WasteEntry) : List LogLine :=
  entries.map (fun e => LogLine.record e.to_dict)

/-- Python's `str.lower()` as a character list: per-character
lowercasing of the string's characters. -/
def lowerChars (s : String) : List Char :=
  s.toList.map Char.toLower

/-- Python's `needle in hay` on strings: `needle` occurs in `hay` as a
contiguous substring.  (`containsSub needle hay` scans `hay` for a
position where `needle` is a prefix; the empty needle always
matches.) -/
def containsSub (needle : List Char) : List Char → Bool
  | [] => needle.isEmpty
  | c :: rest => needle.isPrefixOf (c :: rest) || containsSub needle rest

/-- `search_entries_by_item`: lowercases the search term and keeps the
entries whose lowercased `item_name` contains it as a contiguous
substring (Python's `in` on strings), preserving order. -/
def search_entries_by_item (search_term : String)
    (entries : List WasteEntry) : List WasteEntry :=
  let term := lowerChars search_term
  entries.filter (fun entry => containsSub term (lowerChars entry.item_name))

/-- The pure core of `log_new_waste_entry` after all prompts have
returned: if the chosen quantity type is `"oz"` the value is divided
by `16.0` and the type replaced by `"lbs"`, then the entry is
constructed.  The process-generated `id` and `timestamp` are passed in
as parameters. -/
def log_new_waste_entry (id timestamp station waste_type item_name
    quantity_type : String) (quantity_value : ℚ) (notes : String) :
    WasteEntry :=
  let converted :=
    if quantity_type = "oz" then ("lbs", quantity_value / 16)
    else (quantity_type, quantity_value)
  { id := id, timestamp := timestamp, station := station,
    waste_type := waste_type, item_name := item_name,
    quantity_type := converted.1, quantity_value := converted.2,
    notes := notes }

/-- The per-key value of the summary's `by_station` / `by_waste_type`
defaultdicts: `{"weight": 0.0, "portions": 0.0, "volume": 0.0}`. -/
structure UnitTotals where
  weight : ℚ
  portions : ℚ
  volume : ℚ
deriving DecidableEq

/-- The summary dictionary built by `generate_summary`.  The
defaultdicts are total functions returning their default on untouched
keys. -/
structure Summary where
  total_entries : ℕ
  weight_lbs : ℚ
  portions : ℚ
  volume_qt : ℚ
  by_station : String → UnitTotals
  by_waste_type : String → UnitTotals
  item_frequency : String → ℕ

/-- One iteration of the `for entry in entries` loop of
`generate_summary`: bump the item frequency, then route the quantity
to the bucket of its unit — `lbs` to weight, `po` to portions, `qt`
to volume, anything else to no bucket at all. -/
def updateSummary (s : Summary) (e : WasteEntry) : Summary :=
  let s :=
    { s with item_frequency := fun n =>
        if n = e.item_name then s.item_frequency n + 1 else s.item_frequency n }
  if e.quantity_type = "lbs" then
    { s with
      weight_lbs := s.weight_lbs + e.quantity_value
      by_station := fun st =>
        if st = e.station then
          { s.by_station st with weight := (s.by_station st).weight + e.quantity_value }
        else s.by_station st
      by_waste_type := fun wt =>
        if wt = e.waste_type then
          { s.by_waste_type wt with weight := (s.by_waste_type wt).weight + e.quantity_value }
        else s.by_waste_type wt }
  else if e.quantity_type = "po" then
    { s with
      portions := s.portions + e.quantity_value
      by_station := fun st =>
        if st = e.station then
          { s.by_station st with portions := (s.by_station st).portions + e.quantity_value }
        else s.by_station st
      by_waste_type := fun wt =>
        if wt = e.waste_type then
          { s.by_waste_type wt with portions := (s.by_waste_type wt).portions + e.quantity_value }
        else s.by_waste_type wt }
  else if e.quantity_type = "qt" then
    { s with
      volume_qt := s.volume_qt + e.quantity_value
      by_station := fun st =>
        if st = e.station then
          { s.by_station st with volume := (s.by_station st).volume + e.quantity_value }
        else s.by_station st
      by_waste_type := fun wt =>
        if wt = e.waste_type then
          { s.by_waste_type wt with volume := (s.by_waste_type wt).volume + e.quantity_value }
        else s.by_waste_type wt }
  else s

/-- `generate_summary`: the summary starts with `total_entries =
len(entries)`, all totals zero and empty defaultdicts, then folds the
loop body over the entries in order. -/
def generate_summary (entries : List WasteEntry) : Summary :=
  entries.foldl updateSummary
    { total_entries := entries.length
      weight_lbs := 0
      portions := 0
      volume_qt := 0
      by_station := fun _ => ⟨0, 0, 0⟩
      by_waste_type := fun _ => ⟨0, 0, 0⟩
      item_frequency := fun _ => 0 }

/-! ### Specification-side characterizations of the aggregator -/

/-- Sum of `quantity_value` over entries with quantity type `u`. -/
def unitSum (u : String) (l : List WasteEntry) : ℚ :=
  (l.map (fun e => if e.quantity_type = u then e.quantity_value else 0)).sum

/-- Sum of `quantity_value` over entries at station `st` with quantity
type `u`. -/
def stationUnitSum (st u : String) (l : List WasteEntry) : ℚ :=
  (l.map (fun e =>
    if st = e.station ∧ e.quantity_type = u then e.quantity_value else 0)).sum

/-- Sum of `quantity_value` over entries with waste type `wt` and
quantity type `u`. -/
def wasteTypeUnitSum (wt u : String) (l : List WasteEntry) : ℚ :=
  (l.map (fun e =>
    if wt = e.waste_type ∧ e.quantity_type = u then e.quantity_value else 0)).sum

/-- Number of entries with item name `n`. -/
def nameCount (n : String) (l : List WasteEntry) : ℕ :=
  (l.filter (fun e => e.item_name = n)).length

/-- Modelled from the spec: the claim's reading of a per-station total
as the raw sum of `quantity_value` over entries with that station,
independent of unit.  Used only to compare against what
`generate_summary` actually computes. -/
def rawStationTotal (st : String) (entries : List WasteEntry) : ℚ :=
  ((entries.filter (fun e => e.station = st)).map
    (fun e => e.quantity_value)).sum

/-! ### Concrete entries used as witnesses and counterexamples -/

/-- A concrete valid entry with id `"A"`. -/
def entryA : WasteEntry :=
  ⟨"A", "2026-01-01T10:00:00", "grill", "trim", "Chicken", "lbs", 2, ""⟩

/-- A concrete valid entry with id `"B"`. -/
def entryB : WasteEntry :=
  ⟨"B", "2026-01-01T11:00:00", "pasta", "spoilage", "Basil", "po", 3, "wilted"⟩

/-- A concrete valid entry with id `"C"`. -/
def entryC : WasteEntry :=
  ⟨"C", "2026-01-01T12:00:00", "middle", "overproduction", "Soup", "qt", 1, ""⟩

/-- A concrete entry carrying the unit `"oz"`, as a loaded log can
contain (the log format itself never rejects it). -/
def entryOz : WasteEntry :=
  ⟨"D", "2026-01-01T13:00:00", "grill", "trim", "Cheese", "oz", 2, ""⟩

/-- First entry of the spec's aggregation example: station grill,
quantity 2.0 (weight unit). -/
def exGrill2 : WasteEntry :=
  ⟨"g1", "2026-01-02T09:00:00", "grill", "trim", "item-a", "lbs", 2, ""⟩

/-- Second entry of the spec's aggregation example: station grill,
quantity 3.0 (weight unit). -/
def exGrill3 : WasteEntry :=
  ⟨"g2", "2026-01-02T09:05:00", "grill", "spoilage", "item-b", "lbs", 3, ""⟩

/-- Third entry of the spec's aggregation example: station pasta,
quantity 1.0 (weight unit). -/
def exPasta1 : WasteEntry :=
  ⟨"p1", "2026-01-02T09:10:00", "pasta", "trim", "item-c", "lbs", 1, ""⟩

/-- A syntactically valid JSON object that has a `station` key but
lacks the other required keys — e.g. the log line
`{"station": "grill"}`. -/
def stationOnlyRecord : Record :=
  ⟨none, none, some "grill", none, none, none, none, none⟩

/-! ### Field-level behaviour of one aggregation step -/

/-- One loop iteration never touches `total_entries`. -/
theorem updateSummary_total (s : Summary) (e : WasteEntry) :
    (updateSummary s e).total_entries = s.total_entries := by
  unfold updateSummary
  split_ifs <;> rfl

/-- One loop iteration adds the quantity to `weight_lbs` exactly when
the unit is `"lbs"`. -/
theorem updateSummary_weight (s : Summary) (e : WasteEntry) :
    (updateSummary s e).weight_lbs =
      s.weight_lbs + (if e.quantity_type = "lbs" then e.quantity_value else 0) := by
  unfold updateSummary
  split_ifs with h1 h2 h3 <;> simp [h1]

/-- One loop iteration adds the quantity to `portions` exactly when
the unit is `"po"`. -/
theorem updateSummary_portions (s : Summary) (e : WasteEntry) :
    (updateSummary s e).portions =
      s.portions + (if e.quantity_type = "po" then e.quantity_value else 0) := by
  unfold updateSummary
  split_ifs with h1 h2 h3 <;> simp_all

/-- One loop iteration adds the quantity to `volume_qt` exactly when
the unit is `"qt"`. -/
theorem updateSummary_volume (s : Summary) (e : WasteEntry) :
    (updateSummary s e).volume_qt =
      s.volume_qt + (if e.quantity_type = "qt" then e.quantity_value else 0) := by
  unfold updateSummary
  split_ifs with h1 h2 h3 <;> simp_all

/-- One loop iteration updates the `by_station` bucket of the entry's
station in the sub-bucket of the entry's unit, and nothing else. -/
theorem updateSummary_by_station (s : Summary) (e : WasteEntry) (st : String) :
    (updateSummary s e).by_station st =
      ⟨(s.by_station st).weight +
        (if st = e.station ∧ e.quantity_type = "lbs" then e.quantity_value else 0),
       (s.by_station st).portions +
        (if st = e.station ∧ e.quantity_type = "po" then e.quantity_value else 0),
       (s.by_station st).volume +
        (if st = e.station ∧ e.quantity_type = "qt" then e.quantity_value else 0)⟩ := by
  unfold updateSummary
  split_ifs with h1 h2 h3 <;>
    by_cases hst : st = e.station <;>
      simp_all

/-- One loop iteration updates the `by_waste_type` bucket of the
entry's waste type in the sub-bucket of the entry's unit, and nothing
else. -/
theorem updateSummary_by_waste_type (s : Summary) (e : WasteEntry) (wt : String) :
    (updateSummary s e).by_waste_type wt =
      ⟨(s.by_waste_type wt).weight +
        (if wt = e.waste_type ∧ e.quantity_type = "lbs" then e.quantity_value else 0),
       (s.by_waste_type wt).portions +
        (if wt = e.waste_type ∧ e.quantity_type = "po" then e.quantity_value else 0),
       (s.by_waste_type wt).volume +
        (if wt = e.waste_type ∧ e.quantity_type = "qt" then e.quantity_value else 0)⟩ := by
  unfold updateSummary
  split_ifs with h1 h2 h3 <;>
    by_cases hwt : wt = e.waste_type <;>
      simp_all

/-- One loop iteration bumps exactly the entry's item-name counter. -/
theorem updateSummary_item_frequency (s : Summary) (e : WasteEntry) (n : String) :
    (updateSummary s e).item_frequency n =
      s.item_frequency n + (if n = e.item_name then 1 else 0) := by
  unfold updateSummary
  split_ifs with h1 h2 h3 <;> by_cases hn : n = e.item_name <;> simp_all

/-! ### Closed forms for the whole aggregation loop -/

/-- The loop never changes `total_entries`. -/
theorem foldl_total (l : List WasteEntry) (s : Summary) :
    (l.foldl updateSummary s).total_entries = s.total_entries := by
  induction l generalizing s with
  | nil => rfl
  | cons e l ih => simp [List.foldl_cons, ih, updateSummary_total]

/-- Closed form of `weight_lbs` after the loop. -/
theorem foldl_weight (l : List WasteEntry) (s : Summary) :
    (l.foldl updateSummary s).weight_lbs = s.weight_lbs + unitSum "lbs" l := by
  induction l generalizing s with
  | nil => simp [unitSum]
  | cons e l ih =>
    simp [List.foldl_cons, ih, updateSummary_weight, unitSum, add_assoc]

/-- Closed form of `portions` after the loop. -/
theorem foldl_portions (l : List WasteEntry) (s : Summary) :
    (l.foldl updateSummary s).portions = s.portions + unitSum "po" l := by
  induction l generalizing s with
  | nil => simp [unitSum]
  | cons e l ih =>
    simp [List.foldl_cons, ih, updateSummary_portions, unitSum, add_assoc]

/-- Closed form of `volume_qt` after the loop. -/
theorem foldl_volume (l : List WasteEntry) (s : Summary) :
    (l.foldl updateSummary s).volume_qt = s.volume_qt + unitSum "qt" l := by
  induction l generalizing s with
  | nil => simp [unitSum]
  | cons e l ih =>
    simp [List.foldl_cons, ih, updateSummary_volume, unitSum, add_assoc]

/-- Closed form of each `by_station` bucket after the loop: the three
sub-buckets sum `quantity_value` over the entries at that station with
the matching unit. -/
theorem foldl_by_station (l : List WasteEntry) (s : Summary) (st : String) :
    (l.foldl updateSummary s).by_station st =
      ⟨(s.by_station st).weight + stationUnitSum st "lbs" l,
       (s.by_station st).portions + stationUnitSum st "po" l,
       (s.by_station st).volume + stationUnitSum st "qt" l⟩ := by
  induction l generalizing s with
  | nil => simp [stationUnitSum]
  | cons e l ih =>
    simp [List.foldl_cons, ih, updateSummary_by_station, stationUnitSum, add_assoc]

/-- Closed form of each `by_waste_type` bucket after the loop. -/
theorem foldl_by_waste_type (l : List WasteEntry) (s : Summary) (wt : String) :
    (l.foldl updateSummary s).by_waste_type wt =
      ⟨(s.by_waste_type wt).weight + wasteTypeUnitSum wt "lbs" l,
       (s.by_waste_type wt).portions + wasteTypeUnitSum wt "po" l,
       (s.by_waste_type wt).volume + wasteTypeUnitSum wt "qt" l⟩ := by
  induction l generalizing s with
  | nil => simp [wasteTypeUnitSum]
  | cons e l ih =>
    simp [List.foldl_cons, ih, updateSummary_by_waste_type, wasteTypeUnitSum, add_assoc]

/-- Closed form of each item-frequency counter after the loop. -/
theorem foldl_item_frequency (l : List WasteEntry) (s : Summary) (n : String) :
    (l.foldl updateSummary s).item_frequency n =
      s.item_frequency n + nameCount n l := by
  induction l generalizing s with
  | nil => simp [nameCount]
  | cons e l ih =>
    by_cases hn : n = e.item_name
    · subst hn
      simp [List.foldl_cons, ih, updateSummary_item_frequency, nameCount,
        List.filter_cons]
      omega
    · simp [List.foldl_cons, ih, updateSummary_item_frequency, nameCount,
        List.filter_cons, hn, Ne.symm hn]

/-! ### Log store lemmas -/

/-- Round trip at the record level: rebuilding an entry from its own
dictionary succeeds and reproduces it field for field. -/
theorem from_json_to_dict (e : WasteEntry) :
    WasteEntry.from_json e.to_dict = Except.ok e := rfl

/-- Loading the rewrite of an entry list yields exactly that list. -/
theorem loadLines_rewrite (l : List WasteEntry) :
    loadLines (rewrite_log l) = Except.ok l := by
  induction l with
  | nil => rfl
  | cons e l ih =>
    simp [rewrite_log] at ih
    simp [rewrite_log, loadLines, from_json_to_dict, ih, Except.map]

/-- Loading a concatenation whose first part loads cleanly prepends the
first part's entries to whatever the second part yields. -/
theorem loadLines_append (a b : List LogLine) :
    ∀ L, loadLines a = Except.ok L →
      loadLines (a ++ b) = (loadLines b).map (fun M => L ++ M) := by
  induction a with
  | nil =>
    intro L h
    simp [loadLines] at h
    subst h
    cases hb : loadLines b <;> simp [Except.map, hb]
  | cons x a ih =>
    intro L h
    cases x with
    | blank => exact ih L h
    | malformed => exact ih L h
    | record r =>
      cases hr : WasteEntry.from_json r with
      | error k => simp [loadLines, hr] at h
      | ok e =>
        cases ha : loadLines a with
        | error k => simp [loadLines, hr, ha, Except.map] at h
        | ok M =>
          simp [loadLines, hr, ha, Except.map] at h
          subst h
          have hab := ih M ha
          simp [List.cons_append, loadLines, hr, hab]
          cases hb : loadLines b <;> simp [Except.map]

/-- The executable substring scan agrees with the mathematical
contiguous-substring relation. -/
theorem containsSub_iff (n h : List Char) :
    containsSub n h = true ↔ n <:+: h := by
  induction h with
  | nil =>
    simp [containsSub, List.isEmpty_iff, List.infix_nil]
  | cons c rest ih =>
    simp [containsSub, ih, List.infix_cons_iff, List.isPrefixOf_iff_prefix]

/-! ### Claim theorems -/

/-- Claim C1, counterexample: the per-station totals of
`generate_summary` are not the raw unit-independent sum of
`quantity_value`.  For the single entry `entryOz` (station grill, unit
`"oz"`, quantity 2) the raw sum for grill is 2, but the summary's
grill bucket is entirely zero — no component (nor their sum) equals
the raw total. -/
theorem by_station_not_raw_sum_cex :
    rawStationTotal "grill" [entryOz] = 2 ∧
    (generate_summary [entryOz]).by_station "grill" = ⟨0, 0, 0⟩ := by
  constructor
  · simp [rawStationTotal, entryOz]
  · simp [generate_summary, foldl_by_station, updateSummary_by_station,
      stationUnitSum, entryOz]

/-- Claim C1, amended: the summary's per-station totals are
unit-segregated: for every entry sequence and station, the station's
weight bucket sums `quantity_value` over entries with that station and
unit `"lbs"`, the portions bucket over `"po"`, the volume bucket over
`"qt"` (entries with any other unit contribute to none), and
`total_entries` counts all entries.  On the spec's example — three
entries of a common summed unit (`"lbs"`): grill 2.0, grill 3.0,
pasta 1.0 — the grill bucket totals 5.0, the pasta bucket 1.0, and
`total_entries = 3`. -/
theorem by_station_unit_segregated (entries : List WasteEntry) (st : String) :
    (generate_summary entries).total_entries = entries.length ∧
    (generate_summary entries).by_station st =
      ⟨stationUnitSum st "lbs" entries,
       stationUnitSum st "po" entries,
       stationUnitSum st "qt" entries⟩ ∧
    (generate_summary [exGrill2, exGrill3, exPasta1]).by_station "grill"
      = ⟨5, 0, 0⟩ ∧
    (generate_summary [exGrill2, exGrill3, exPasta1]).by_station "pasta"
      = ⟨1, 0, 0⟩ ∧
    (generate_summary [exGrill2, exGrill3, exPasta1]).total_entries = 3 := by
  refine ⟨?_, ?_, ?_, ?_, ?_⟩
  · simp [generate_summary, foldl_total]
  · simp [generate_summary, foldl_by_station]
  · simp [generate_summary, foldl_by_station, updateSummary_by_station,
      stationUnitSum, exGrill2, exGrill3, exPasta1]
    norm_num
  · simp [generate_summary, foldl_by_station, updateSummary_by_station,
      stationUnitSum, exGrill2, exGrill3, exPasta1]
  · simp [generate_summary, foldl_total, updateSummary_total]

/-- Claim C2: the spec requires a syntactically valid line missing a
required field (other than `notes`) to be skipped with a warning, the
rest of the load surviving.  The code's `except json.JSONDecodeError`
does not catch the `KeyError` raised by `from_json`, so such a line
aborts the entire load: with a good line, then `{"station": "grill"}`,
then another good line, `load_entries` raises (models as
`Except.error "waste_type"`, the first missing key) and returns no
entries at all.  A line missing only `notes` does deserialize with
`notes = ""`, as the claim says. -/
theorem missing_required_field_aborts_load :
    load_entries (some [LogLine.record entryA.to_dict,
                        LogLine.record stationOnlyRecord,
                        LogLine.record entryC.to_dict])
      = Except.error "waste_type" ∧
    WasteEntry.from_json { entryA.to_dict with notes := none }
      = Except.ok entryA := by
  constructor <;> rfl

/-- Claim C3: deserializing the serialization of any valid entry
reproduces every field exactly (serialization is modelled at the
record level; `json.dumps`/`json.loads` round-trip these records
verbatim, see the module comment). -/
theorem serialize_deserialize_round_trip (e : WasteEntry) :
    WasteEntry.from_json e.to_dict = Except.ok e := rfl

/-- Claim C4: the delete protocol keeps exactly the entries whose id
differs from the target, in their original relative order (the
remaining list is a sublist of the original and reloading the
rewritten log yields it verbatim); when no entry has the target id,
every entry is preserved unchanged. -/
theorem delete_by_id_correct (target : String) (entries : List WasteEntry) :
    loadLines (rewrite_log (updated_entries target entries))
      = Except.ok (updated_entries target entries) ∧
    (updated_entries target entries).Sublist entries ∧
    (∀ e, e ∈ updated_entries target entries ↔ e ∈ entries ∧ e.id ≠ target) ∧
    ((∀ e ∈ entries, e.id ≠ target) → updated_entries target entries = entries) := by
  refine ⟨loadLines_rewrite _, List.filter_sublist _, ?_, ?_⟩
  · intro e
    simp [updated_entries, List.mem_filter]
  · intro h
    simp only [updated_entries]
    rw [List.filter_eq_self]
    intro e he
    simpa using h e he

/-- Witness for C4: on the log `[entryA, entryB, entryC]` (ids A, B,
C), deleting id `"B"` rewrites a log that reloads to exactly
`[entryA, entryC]`, and deleting the absent id `"Z"` preserves every
entry. -/
theorem delete_by_id_correct_witness :
    loadLines (rewrite_log (updated_entries "B" [entryA, entryB, entryC]))
      = Except.ok [entryA, entryC] ∧
    updated_entries "Z" [entryA, entryB, entryC] = [entryA, entryB, entryC] := by
  constructor
  · have h := (delete_by_id_correct "B" [entryA, entryB, entryC]).1
    have h2 : updated_entries "B" [entryA, entryB, entryC] = [entryA, entryC] := by
      decide
    rw [h2] at h
    exact h
  · exact (delete_by_id_correct "Z" [entryA, entryB, entryC]).2.2.2 (by decide)

/-- Claim C5: a log whose lines are blank, a well-formed record, a
line failing `json.loads`, another well-formed record, and blank,
loads exactly the two well-formed entries in file order; the malformed
and blank lines are skipped and the load is not aborted.  (A
syntactically valid line missing a required field is a different
failure — see C2.) -/
theorem malformed_line_skipped (r₁ r₂ : Record) (e₁ e₂ : WasteEntry)
    (h₁ : WasteEntry.from_json r₁ = Except.ok e₁)
    (h₂ : WasteEntry.from_json r₂ = Except.ok e₂) :
    load_entries (some [LogLine.blank, LogLine.record r₁, LogLine.malformed,
                        LogLine.record r₂, LogLine.blank])
      = Except.ok [e₁, e₂] := by
  simp [load_entries, loadLines, h₁, h₂, Except.map]

/-- Witness for C5: concrete instance with `entryA` and `entryC`. -/
theorem malformed_line_skipped_witness :
    load_entries (some [LogLine.blank, LogLine.record entryA.to_dict,
                        LogLine.malformed, LogLine.record entryC.to_dict,
                        LogLine.blank])
      = Except.ok [entryA, entryC] :=
  malformed_line_skipped entryA.to_dict entryC.to_dict entryA entryC rfl rfl

/-- Claim C6: appending `e₁, e₂, e₃` in that order to any log whose
lines load cleanly as `L` and then loading yields `L ++ [e₁, e₂, e₃]`
— the three entries in exactly that order after the existing ones —
and a single append only adds one new record line at the end, leaving
the existing lines untouched. -/
theorem append_order_preserved (f : List LogLine) (L : List WasteEntry)
    (h : loadLines f = Except.ok L) (e₁ e₂ e₃ : WasteEntry) :
    load_entries (save_entry (save_entry (save_entry (some f) e₁) e₂) e₃)
      = Except.ok (L ++ [e₁, e₂, e₃]) ∧
    save_entry (some f) e₁ = some (f ++ [LogLine.record e₁.to_dict]) := by
  constructor
  · have tail : loadLines [LogLine.record e₁.to_dict, LogLine.record e₂.to_dict,
        LogLine.record e₃.to_dict] = Except.ok [e₁, e₂, e₃] := by
      simp [loadLines, from_json_to_dict, Except.map]
    have key := loadLines_append f
      [LogLine.record e₁.to_dict, LogLine.record e₂.to_dict,
       LogLine.record e₃.to_dict] L h
    simp [load_entries, save_entry, List.append_assoc, key, tail, Except.map]
  · rfl

/-- Witness for C6: starting from the empty log (which loads as `[]`),
appending `entryA`, `entryB`, `entryC` and loading returns them in
that order. -/
theorem append_order_preserved_witness :
    load_entries (save_entry (save_entry (save_entry (some []) entryA) entryB)
        entryC)
      = Except.ok [entryA, entryB, entryC] := by
  have h := (append_order_preserved [] [] rfl entryA entryB entryC).1
  simpa using h

/-- Claim C7: loading when the log file does not exist (`none`)
returns the empty sequence, not an error. -/
theorem load_missing_file_empty :
    load_entries none = Except.ok [] := rfl

/-- Claim C8: substring search returns a sublist of the input
(original order preserved) whose members are exactly the entries whose
`item_name` contains the search text case-insensitively, and the empty
list when no entry matches. -/
theorem search_by_item_correct (term : String) (entries : List WasteEntry) :
    (search_entries_by_item term entries).Sublist entries ∧
    (∀ e, e ∈ search_entries_by_item term entries ↔
      e ∈ entries ∧ lowerChars term <:+: lowerChars e.item_name) ∧
    ((∀ e ∈ entries, ¬ lowerChars term <:+: lowerChars e.item_name) →
      search_entries_by_item term entries = []) := by
  refine ⟨List.filter_sublist _, ?_, ?_⟩
  · intro e
    simp [search_entries_by_item, List.mem_filter, containsSub_iff]
  · intro h
    simp only [search_entries_by_item]
    rw [List.filter_eq_nil_iff]
    intro e he
    rw [containsSub_iff]
    exact h e he

/-- Witness for C8: searching `[entryA, entryB]` (item names
`"Chicken"`, `"Basil"`) for `"xyz"` matches nothing and returns `[]`;
the membership characterization evaluated at `entryA` for the
uppercase term `"CHI"` shows the case-insensitive match. -/
theorem search_by_item_correct_witness :
    search_entries_by_item "xyz" [entryA, entryB] = [] ∧
    (entryA ∈ search_entries_by_item "CHI" [entryA, entryB] ↔
      entryA ∈ [entryA, entryB] ∧
        lowerChars "CHI" <:+: lowerChars entryA.item_name) := by
  constructor
  · refine (search_by_item_correct "xyz" [entryA, entryB]).2.2 ?_
    simp only [← containsSub_iff]
    decide
  · exact (search_by_item_correct "CHI" [entryA, entryB]).2.1 entryA

/-- Claim C9: an entry whose unit is none of `"lbs"`, `"po"`, `"qt"`
(e.g. `"oz"` in a loaded log) is counted by `total_entries` and
`item_frequency`, but its quantity reaches none of the quantity
totals: inserting it anywhere in an entry sequence leaves
`weight_lbs`, `portions`, `volume_qt` and every `by_station` and
`by_waste_type` bucket exactly as they are without it. -/
theorem unknown_unit_excluded_from_totals (l₁ l₂ : List WasteEntry)
    (e : WasteEntry) (h1 : e.quantity_type ≠ "lbs")
    (h2 : e.quantity_type ≠ "po") (h3 : e.quantity_type ≠ "qt") :
    (generate_summary (l₁ ++ e :: l₂)).total_entries
      = (generate_summary (l₁ ++ l₂)).total_entries + 1 ∧
    (generate_summary (l₁ ++ e :: l₂)).item_frequency e.item_name
      = (generate_summary (l₁ ++ l₂)).item_frequency e.item_name + 1 ∧
    (generate_summary (l₁ ++ e :: l₂)).weight_lbs
      = (generate_summary (l₁ ++ l₂)).weight_lbs ∧
    (generate_summary (l₁ ++ e :: l₂)).portions
      = (generate_summary (l₁ ++ l₂)).portions ∧
    (generate_summary (l₁ ++ e :: l₂)).volume_qt
      = (generate_summary (l₁ ++ l₂)).volume_qt ∧
    (∀ st, (generate_summary (l₁ ++ e :: l₂)).by_station st
      = (generate_summary (l₁ ++ l₂)).by_station st) ∧
    (∀ wt, (generate_summary (l₁ ++ e :: l₂)).by_waste_type wt
      = (generate_summary (l₁ ++ l₂)).by_waste_type wt) := by
  refine ⟨?_, ?_, ?_, ?_, ?_, ?_, ?_⟩
  · simp only [generate_summary, foldl_total, List.length_append,
      List.length_cons]
    omega
  · simp only [generate_summary, foldl_item_frequency, nameCount,
      List.filter_append, List.filter_cons, List.length_append]
    simp
    omega
  · simp [generate_summary, foldl_weight, updateSummary_weight, unitSum,
      List.map_append, List.sum_append, h1]
  · simp [generate_summary, foldl_portions, updateSummary_portions, unitSum,
      List.map_append, List.sum_append, h2]
  · simp [generate_summary, foldl_volume, updateSummary_volume, unitSum,
      List.map_append, List.sum_append, h3]
  · intro st
    simp [generate_summary, foldl_by_station, updateSummary_by_station,
      stationUnitSum, List.map_append, List.sum_append, h1, h2, h3]
  · intro wt
    simp [generate_summary, foldl_by_waste_type, updateSummary_by_waste_type,
      wasteTypeUnitSum, List.map_append, List.sum_append, h1, h2, h3]

/-- Witness for C9: with the `"oz"` entry `entryOz` after `entryA`,
the weight total, the grill station bucket and `total_entries` relate
to the summary of `[entryA]` alone exactly as the theorem states. -/
theorem unknown_unit_excluded_from_totals_witness :
    (generate_summary [entryA, entryOz]).weight_lbs
      = (generate_summary [entryA]).weight_lbs ∧
    (generate_summary [entryA, entryOz]).by_station "grill"
      = (generate_summary [entryA]).by_station "grill" ∧
    (generate_summary [entryA, entryOz]).total_entries
      = (generate_summary [entryA]).total_entries + 1 := by
  have h := unknown_unit_excluded_from_totals [entryA] [] entryOz
    (by decide) (by decide) (by decide)
  exact ⟨h.2.2.1, h.2.2.2.2.2.1 "grill", h.1⟩

/-- Claim C10: the interactive entry-creation path converts ounces on
entry: with quantity type `"oz"` and value `v`, the constructed entry
has quantity type `"lbs"` and value `v / 16` (also in its serialized
record), and no entry built through this path ever carries quantity
type `"oz"`, whatever unit was chosen. -/
theorem oz_converted_to_lbs (id ts st wt item notes : String) (v : ℚ)
    (qt : String) :
    (log_new_waste_entry id ts st wt item "oz" v notes).quantity_type
      = "lbs" ∧
    (log_new_waste_entry id ts st wt item "oz" v notes).quantity_value
      = v / 16 ∧
    (log_new_waste_entry id ts st wt item "oz" v notes).to_dict.quantity_type
      = some "lbs" ∧
    (log_new_waste_entry id ts st wt item qt v notes).quantity_type ≠ "oz" := by
  refine ⟨rfl, rfl, rfl, ?_⟩
  by_cases h : qt = "oz"
  · subst h
    simp [log_new_waste_entry]
  · simp [log_new_waste_entry, h]

end WasteTracker
